import Mathlib

/-!
Verification of the customer/product/order mutation service of a small CRM
backend (`crm/mutations.py`).  The mutations are embedded shallowly: the
entity store is an explicit record threaded through every operation, Python
exceptions become `Except String`, and the two regular expressions used for
validation are transcribed as executable character-list matchers.
-/

namespace CRM

/-- ASCII whitespace, as matched by Python's `\s` and stripped by `str.strip`. -/
def isWs (c : Char) : Bool :=
  c == ' ' || c == '\t' || c == '\n' || c == '\r' || c == '\x0b' || c == '\x0c'

/-- Python `str.strip`: remove leading and trailing whitespace. -/
def stripList (l : List Char) : List Char :=
  ((l.dropWhile isWs).reverse.dropWhile isWs).reverse

/-- Python `str.strip` on strings. -/
def strip (s : String) : String := ⟨stripList s.data⟩

/-- Python `str.lower` (ASCII). -/
def lower (s : String) : String := ⟨s.data.map Char.toLower⟩

/-- Python truthiness test used for the name: `not name or not name.strip()`. -/
def isBlank (s : String) : Bool := s.data.isEmpty || (strip s).data.isEmpty

/-- The email regex `^[^\s@]+@[^\s@]+\.[^\s@]+$` from
`validate_customer_data`: exactly one `@`; a nonempty whitespace-free local
part; a nonempty whitespace-free domain containing a dot that has at least one
character on each side. -/
def emailFormatOk (s : String) : Bool :=
  match s.data.splitOn '@' with
  | [loc, dom] =>
    !loc.isEmpty && loc.all (fun c => !isWs c) &&
    !dom.isEmpty && dom.all (fun c => !isWs c) &&
    dom.tail.dropLast.contains '.'
  | _ => false

/-- The first alternative of the phone regex, `\+[1-9]\d{1,14}`: a plus sign,
a nonzero digit, then between 1 and 14 further digits. -/
def intlPhoneOk (s : String) : Bool :=
  match s.data with
  | a :: c :: ds =>
    a == '+' && c.isDigit && c != '0' && ds.all Char.isDigit &&
    decide (1 ≤ ds.length) && decide (ds.length ≤ 14)
  | _ => false

/-- The second alternative of the phone regex, `\d{3}-\d{3}-\d{4}`. -/
def dashedPhoneOk (s : String) : Bool :=
  match s.data with
  | [a1, a2, a3, d1, b1, b2, b3, d2, c1, c2, c3, c4] =>
    d1 == '-' && d2 == '-' &&
    ([a1, a2, a3, b1, b2, b3, c1, c2, c3, c4]).all Char.isDigit
  | _ => false

/-- The full anchored phone regex `^(\+[1-9]\d{1,14}|\d{3}-\d{3}-\d{4})$`. -/
def phoneRegexOk (s : String) : Bool := intlPhoneOk s || dashedPhoneOk s

instance {ε α : Type} [DecidableEq ε] [DecidableEq α] :
    DecidableEq (Except ε α) := fun x y =>
  match x, y with
  | .error a, .error b =>
    if h : a = b then .isTrue (congrArg Except.error h)
    else .isFalse (fun hc => h (by injection hc))
  | .ok a, .ok b =>
    if h : a = b then .isTrue (congrArg Except.ok h)
    else .isFalse (fun hc => h (by injection hc))
  | .error _, .ok _ => .isFalse (fun hc => Except.noConfusion hc)
  | .ok _, .error _ => .isFalse (fun hc => Except.noConfusion hc)

/-- A persisted Customer row. -/
structure Customer where
  id : Nat
  name : String
  email : String
  phone : Option String
deriving DecidableEq

/-- A persisted Product row. -/
structure Product where
  id : Nat
  name : String
  price : Rat
  stock : Int
deriving DecidableEq

/-- A persisted Order row, with its many-to-many product associations. -/
structure Order where
  id : Nat
  customerId : Nat
  productIds : List Nat
  totalAmount : Rat
  orderDate : Nat
deriving DecidableEq

/-- The entity store: the three tables plus the id sequences. -/
structure Store where
  customers : List Customer
  products : List Product
  orders : List Order
  nextCustomerId : Nat
  nextProductId : Nat
  nextOrderId : Nat
deriving DecidableEq

/-- `BaseCustomerMutation.validate_customer_data`: accumulates every
violation.  `Customer.objects.filter(email=email)` is an exact (byte-wise,
case-sensitive) lookup on the raw input email. -/
def validate_customer_data (st : Store) (name email : String)
    (phone : Option String) : List String :=
  (if isBlank name then ["Name is required"] else []) ++
  (if !emailFormatOk email then ["Invalid email format"] else []) ++
  (if st.customers.any (fun c => c.email == email) then
    ["Email already exists"] else []) ++
  (match phone with
   | some p =>
     if p != "" && !phoneRegexOk p then
       ["Invalid phone format. Use +1234567890 or 123-456-7890 format"]
     else []
   | none => [])

/-- Modelled from the spec: `crm/models.py` is not under `src/`.  The spec's
data model declares `Customer.email` globally unique, so the store-level
insert (`Customer.objects.create`) enforces a unique constraint on the stored
email — exact string equality, as a database unique index compares — and
raises a constraint error on a duplicate. -/
def dbCreateCustomer (st : Store) (name email : String) (phone : Option String) :
    Except String (Customer × Store) :=
  if st.customers.any (fun c => c.email == email) then
    .error "UNIQUE constraint failed: crm_customer.email"
  else
    let c : Customer := ⟨st.nextCustomerId, name, email, phone⟩
    .ok (c, { st with
               customers := st.customers ++ [c],
               nextCustomerId := st.nextCustomerId + 1 })

/-- `BaseCustomerMutation.create_customer_safe`: validate, then persist with
the email lower-cased and stripped and the name stripped; a store-level
failure is caught and reported as a database error.  Returns the created
customer (if any), the error list (empty on success), and the store. -/
def create_customer_safe (st : Store) (name email : String)
    (phone : Option String) : Option Customer × List String × Store :=
  let errors := validate_customer_data st name email phone
  if errors.isEmpty then
    match dbCreateCustomer st (strip name) (strip (lower email)) phone with
    | .ok (c, st') => (some c, [], st')
    | .error e => (none, ["Database error: " ++ e], st)
  else
    (none, errors, st)

/-- The payload of a successful `CreateCustomer` mutation. -/
structure CreateCustomerPayload where
  customer : Customer
  message : String
  success : Bool
deriving DecidableEq

/-- `CreateCustomer.mutate`: on any error the joined error list is raised
(the store is left unchanged), otherwise the created customer is returned. -/
def createCustomer (st : Store) (name email : String) (phone : Option String) :
    Except String CreateCustomerPayload × Store :=
  match create_customer_safe st name email phone with
  | (some c, _, st') =>
    (.ok ⟨c, "Customer created successfully.", true⟩, st')
  | (none, errors, st') =>
    (.error (String.intercalate "; " errors), st')

/-- One element of the `customers` argument of `BulkCreateCustomers`. -/
structure CustomerInput where
  name : String
  email : String
  phone : Option String
deriving DecidableEq

/-- A per-item record in the `results` list of `BulkCreateCustomers`. -/
structure CustomerResult where
  customer : Option Customer
  success : Bool
  error : Option String
  input_data : CustomerInput
deriving DecidableEq

/-- The payload of a completed `BulkCreateCustomers` mutation. -/
structure BulkPayload where
  results : List CustomerResult
  total_count : Nat
  success_count : Nat
  error_count : Nat
  message : String
  success : Bool
deriving DecidableEq

/-- The pre-validation pass of `BulkCreateCustomers.mutate` when
`fail_on_error` is set: every item is validated against the incoming store
and all violations are collected, each prefixed with its 1-based position. -/
def preValidationErrors (st : Store) (customers : List CustomerInput) :
    List String :=
  (customers.enum.map (fun p =>
    (validate_customer_data st p.2.name p.2.email p.2.phone).map
      (fun e => "Customer " ++ toString (p.1 + 1) ++ ": " ++ e))).flatten

/-- The per-item loop of `BulkCreateCustomers.mutate`.  Each item runs
`create_customer_safe` under its own savepoint: a failed item leaves the
store as it was, and with `fail_on_error` set the exception raised for the
failing item (re-wrapped once by the `except` handler it passes through)
aborts the whole loop.  Returns the results, the success count, and the
store. -/
def bulkLoop (failOnError : Bool) :
    Nat → Store → List CustomerInput →
    Except String (List CustomerResult × Nat × Store)
  | _, st, [] => .ok ([], 0, st)
  | i, st, item :: rest =>
    match create_customer_safe st item.name item.email item.phone with
    | (some c, _, st') =>
      match bulkLoop failOnError (i + 1) st' rest with
      | .ok (rs, k, stF) => .ok (⟨some c, true, none, item⟩ :: rs, k + 1, stF)
      | .error e => .error e
    | (none, errors, st') =>
      let msg := String.intercalate "; " errors
      if failOnError then
        .error ("Failed to create customer " ++ toString (i + 1) ++
          ": Failed to create customer " ++ toString (i + 1) ++ ": " ++ msg)
      else
        match bulkLoop failOnError (i + 1) st' rest with
        | .ok (rs, k, stF) => .ok (⟨none, false, some msg, item⟩ :: rs, k, stF)
        | .error e => .error e

/-- The completion message of `BulkCreateCustomers.mutate`. -/
def bulkMessage (total successCount errorCount : Nat) : String :=
  if errorCount == 0 then
    "Successfully created all " ++ toString total ++ " customers."
  else if successCount == 0 then
    "Failed to create any of the " ++ toString total ++ " customers."
  else
    "Processed " ++ toString total ++ " customers: " ++
      toString successCount ++ " created, " ++ toString errorCount ++ " failed."

/-- `BulkCreateCustomers.mutate`: reject an empty batch; pre-validate when
`fail_on_error` is set; run the per-item loop inside `transaction.atomic`, so
an escaping exception rolls the whole call back to the incoming store; on
completion report counts, a message, and `success = (error_count == 0)`. -/
def bulkCreateCustomers (st : Store) (customers : List CustomerInput)
    (failOnError : Bool) : Except String BulkPayload × Store :=
  if customers.isEmpty then
    (.error "No customers provided", st)
  else
    let preErrors :=
      if failOnError then preValidationErrors st customers else []
    if !preErrors.isEmpty then
      (.error ("Validation failed: " ++ String.intercalate "; " preErrors), st)
    else
      match bulkLoop failOnError 0 st customers with
      | .error e => (.error e, st)
      | .ok (results, successCount, st') =>
        let total := customers.length
        let errorCount := total - successCount
        (.ok ⟨results, total, successCount, errorCount,
              bulkMessage total successCount errorCount,
              errorCount == 0⟩, st')

/-- The payload of a successful `CreateProduct` mutation. -/
structure CreateProductPayload where
  product : Product
  message : String
  success : Bool
deriving DecidableEq

/-- `CreateProduct.mutate`: price must be positive, a provided stock must be
non-negative, an absent stock defaults to 0; on success the product is
persisted and returned. -/
def createProduct (st : Store) (name : String) (price : Rat)
    (stock : Option Int) : Except String CreateProductPayload × Store :=
  let errors :=
    (if price ≤ 0 then ["Price must be greater than 0"] else []) ++
    (match stock with
     | some sv => if sv < 0 then ["Stock must be non-negative"] else []
     | none => [])
  let stockVal := stock.getD 0
  if !errors.isEmpty then
    (.error (String.intercalate "; " errors), st)
  else
    let p : Product := ⟨st.nextProductId, name, price, stockVal⟩
    (.ok ⟨p, "Product created successfully.", true⟩,
     { st with products := st.products ++ [p],
               nextProductId := st.nextProductId + 1 })

/-- The payload of a successful `CreateOrder` mutation. -/
structure CreateOrderPayload where
  order : Order
  message : String
  success : Bool
deriving DecidableEq

/-- `Product.objects.filter(id__in=product_ids)`: the store rows whose id
occurs in the request; each matching row occurs once, regardless of how often
its id is repeated in `product_ids`. -/
def foundProducts (st : Store) (product_ids : List Nat) : List Product :=
  st.products.filter (fun p => product_ids.contains p.id)

/-- The set difference `provided_product_ids - existing_product_ids` of
`CreateOrder.mutate`, as a duplicate-free list in first-occurrence order. -/
def missingIds (st : Store) (product_ids : List Nat) : List Nat :=
  product_ids.dedup.filter
    (fun pid => !(foundProducts st product_ids).any (fun p => p.id == pid))

/-- The error accumulation of `CreateOrder.mutate`: a missing customer, an
empty product list, and unresolved product ids are all reported together. -/
def orderErrors (st : Store) (customer_id : Nat) (product_ids : List Nat) :
    List String :=
  (if st.customers.any (fun c => c.id == customer_id) then []
   else ["Customer with ID " ++ toString customer_id ++ " does not exist"]) ++
  (if product_ids.isEmpty then
    ["At least one product ID is required"]
   else
     let missing := missingIds st product_ids
     if missing.isEmpty then []
     else ["Invalid product IDs: " ++
       String.intercalate ", " (missing.map toString)])

/-- `CreateOrder.mutate`: validate, default the order date to now, total the
prices of the found products, and persist the order with its associations
atomically. -/
def createOrder (st : Store) (customer_id : Nat) (product_ids : List Nat)
    (order_date : Option Nat) (now : Nat) :
    Except String CreateOrderPayload × Store :=
  let errors := orderErrors st customer_id product_ids
  if !errors.isEmpty then
    (.error (String.intercalate "; " errors), st)
  else
    let od := order_date.getD now
    let found := foundProducts st product_ids
    let total := (found.map Product.price).sum
    let order : Order :=
      ⟨st.nextOrderId, customer_id, found.map Product.id, total, od⟩
    (.ok ⟨order, "Order created successfully.", true⟩,
     { st with orders := st.orders ++ [order],
               nextOrderId := st.nextOrderId + 1 })

/-- The phone formats exactly as the spec words them: `+` followed by 1–14
digits with no leading zero after the `+`, or `DDD-DDD-DDDD`.  Stated from
the spec's words for comparison with the source regex; not part of the
embedding. -/
def specPhoneOk (s : String) : Bool :=
  (match s.data with
   | a :: ds =>
     a == '+' && !ds.isEmpty && decide (ds.length ≤ 14) &&
     ds.all Char.isDigit && ds.head? != some '0'
   | _ => false) ||
  dashedPhoneOk s

/-- A store with no rows at all. -/
def emptyStore : Store := ⟨[], [], [], 0, 0, 0⟩

/-- A store holding one customer whose email is in canonical form. -/
def annStore : Store := ⟨[⟨0, "Ann", "a@b.com", none⟩], [], [], 1, 0, 0⟩

/-- Three bulk inputs whose second item duplicates the email stored in
`annStore`. -/
def bulkInputs : List CustomerInput :=
  [⟨"Carol", "carol@x.com", none⟩, ⟨"Dup", "a@b.com", none⟩,
   ⟨"Bob", "bob@x.com", none⟩]

/-- Two bulk inputs sharing one email: both pass pre-validation against an
empty store, and the second fails during the write phase. -/
def twinInputs : List CustomerInput :=
  [⟨"Ann", "ann@x.com", none⟩, ⟨"Twin", "ann@x.com", none⟩]

/-- A store with one customer and two products, for the order mutations. -/
def shopStore : Store :=
  ⟨[⟨1, "Carl", "c@x.com", none⟩],
   [⟨1, "P1", 10, 5⟩, ⟨2, "P2", 25, 7⟩], [], 2, 3, 0⟩

/-! ## Helper lemmas -/

theorem mem_validate_name (st : Store) (n e : String) (p : Option String) :
    "Name is required" ∈ validate_customer_data st n e p ↔ isBlank n = true := by
  unfold validate_customer_data
  cases p <;> split_ifs <;> simp_all

theorem mem_validate_email_format (st : Store) (n e : String)
    (p : Option String) :
    "Invalid email format" ∈ validate_customer_data st n e p ↔
      emailFormatOk e = false := by
  unfold validate_customer_data
  cases p <;> split_ifs <;> simp_all

theorem mem_validate_email_exists (st : Store) (n e : String)
    (p : Option String) :
    "Email already exists" ∈ validate_customer_data st n e p ↔
      st.customers.any (fun c => c.email == e) = true := by
  unfold validate_customer_data
  cases p <;> split_ifs <;> simp_all

theorem mem_validate_phone (st : Store) (n e : String) (p : Option String) :
    "Invalid phone format. Use +1234567890 or 123-456-7890 format" ∈
        validate_customer_data st n e p ↔
      ∃ q, p = some q ∧ q ≠ "" ∧ phoneRegexOk q = false := by
  unfold validate_customer_data
  cases p <;> split_ifs <;> simp_all

/-- Exhaustive case analysis of `create_customer_safe`: a clean insert, an
insert rejected by the store's unique-email constraint, or a validation
failure. -/
theorem ccs_cases (st : Store) (n e : String) (p : Option String) :
    (validate_customer_data st n e p = [] ∧
     st.customers.any (fun x => x.email == strip (lower e)) = false ∧
     create_customer_safe st n e p =
       (some ⟨st.nextCustomerId, strip n, strip (lower e), p⟩, [],
        { st with
            customers :=
              st.customers ++ [⟨st.nextCustomerId, strip n, strip (lower e), p⟩],
            nextCustomerId := st.nextCustomerId + 1 })) ∨
    (validate_customer_data st n e p = [] ∧
     st.customers.any (fun x => x.email == strip (lower e)) = true ∧
     create_customer_safe st n e p =
       (none, ["Database error: UNIQUE constraint failed: crm_customer.email"],
        st)) ∨
    (validate_customer_data st n e p ≠ [] ∧
     create_customer_safe st n e p = (none, validate_customer_data st n e p, st)) := by
  by_cases hv : validate_customer_data st n e p = []
  · by_cases ha : st.customers.any (fun x => x.email == strip (lower e)) = true
    · refine Or.inr (Or.inl ⟨hv, ha, ?_⟩)
      unfold create_customer_safe dbCreateCustomer
      simp [hv, ha]
    · refine Or.inl ⟨hv, by simpa using ha, ?_⟩
      unfold create_customer_safe dbCreateCustomer
      simp [hv, ha]
  · refine Or.inr (Or.inr ⟨hv, ?_⟩)
    unfold create_customer_safe
    simp [hv]

/-- Shape of a successful `create_customer_safe` call: the created customer
is appended to the store and the error list is empty. -/
theorem ccs_some {st : Store} {n e : String} {p : Option String}
    {c : Customer} {l : List String} {st' : Store}
    (h : create_customer_safe st n e p = (some c, l, st')) :
    st'.customers = st.customers ++ [c] ∧ l = [] := by
  rcases ccs_cases st n e p with ⟨_, _, heq⟩ | ⟨_, _, heq⟩ | ⟨_, heq⟩ <;>
    rw [heq] at h
  · simp only [Prod.mk.injEq, Option.some.injEq] at h
    obtain ⟨rfl, rfl, rfl⟩ := h
    exact ⟨rfl, rfl⟩
  · simp at h
  · simp at h

/-- Shape of a failed `create_customer_safe` call: the store is unchanged and
the error list is nonempty. -/
theorem ccs_none {st : Store} {n e : String} {p : Option String}
    {l : List String} {st' : Store}
    (h : create_customer_safe st n e p = (none, l, st')) :
    st' = st ∧ l ≠ [] := by
  rcases ccs_cases st n e p with ⟨_, _, heq⟩ | ⟨_, _, heq⟩ | ⟨hne, heq⟩ <;>
    rw [heq] at h
  · simp at h
  · simp only [Prod.mk.injEq] at h
    obtain ⟨-, hl, hst⟩ := h
    exact ⟨hst.symm, by rw [← hl]; simp⟩
  · simp only [Prod.mk.injEq] at h
    obtain ⟨-, hl, hst⟩ := h
    exact ⟨hst.symm, by rw [← hl]; exact hne⟩

/-- Best-effort invariant of the per-item loop: it always completes, records
one result per input in order, counts the successes, and appends exactly the
successfully created customers to the store. -/
theorem bulkLoop_false_spec (cs : List CustomerInput) :
    ∀ (i : Nat) (st : Store),
    ∃ rs k st', bulkLoop false i st cs = .ok (rs, k, st') ∧
      rs.map (fun r => r.input_data) = cs ∧
      rs.length = cs.length ∧
      k = (rs.filter (fun r => r.success)).length ∧
      k + (rs.filter (fun r => !r.success)).length = cs.length ∧
      st'.customers = st.customers ++ rs.filterMap (fun r => r.customer) ∧
      (∀ r ∈ rs, r.success = false → r.customer = none) := by
  induction cs with
  | nil =>
    intro i st
    exact ⟨[], 0, st, rfl, rfl, rfl, rfl, rfl, by simp, by simp⟩
  | cons item rest ih =>
    intro i st
    rcases hc : create_customer_safe st item.name item.email item.phone with
      ⟨cust, l, st2⟩
    cases cust with
    | some c =>
      obtain ⟨hst2, -⟩ := ccs_some hc
      obtain ⟨rs, k, st', hloop, hmap, hlen, hk, hsum, hcust, hnone⟩ :=
        ih (i + 1) st2
      refine ⟨⟨some c, true, none, item⟩ :: rs, k + 1, st', ?_, ?_, ?_, ?_, ?_, ?_, ?_⟩
      · simp [bulkLoop, hc, hloop]
      · simp [hmap]
      · simp [hlen]
      · simp [List.filter_cons]; omega
      · simp [List.filter_cons]; omega
      · simp [hcust, hst2, List.filterMap_cons]
      · intro r hr hfail
        rcases List.mem_cons.mp hr with rfl | hr2
        · simp at hfail
        · exact hnone r hr2 hfail
    | none =>
      obtain ⟨rfl, -⟩ := ccs_none hc
      obtain ⟨rs, k, st', hloop, hmap, hlen, hk, hsum, hcust, hnone⟩ :=
        ih (i + 1) st2
      refine ⟨⟨none, false, some (String.intercalate "; " l), item⟩ :: rs, k, st',
        ?_, ?_, ?_, ?_, ?_, ?_, ?_⟩
      · simp [bulkLoop, hc, hloop]
      · simp [hmap]
      · simp [hlen]
      · simp [List.filter_cons]; omega
      · simp [List.filter_cons]; omega
      · simp [hcust, List.filterMap_cons]
      · intro r hr hfail
        rcases List.mem_cons.mp hr with rfl | hr2
        · rfl
        · exact hnone r hr2 hfail

/-- Fail-fast invariant of the per-item loop: a loop that completes had only
successful items, and appended exactly their customers to the store. -/
theorem bulkLoop_true_ok (cs : List CustomerInput) :
    ∀ (i : Nat) (st : Store) (rs : List CustomerResult) (k : Nat) (st' : Store),
    bulkLoop true i st cs = .ok (rs, k, st') →
    rs.all (fun r => r.success) = true ∧
    st'.customers = st.customers ++ rs.filterMap (fun r => r.customer) := by
  induction cs with
  | nil =>
    intro i st rs k st' h
    simp only [bulkLoop, Except.ok.injEq, Prod.mk.injEq] at h
    obtain ⟨rfl, -, rfl⟩ := h
    simp
  | cons item rest ih =>
    intro i st rs k st' h
    rcases hc : create_customer_safe st item.name item.email item.phone with
      ⟨cust, l, st2⟩
    cases cust with
    | some c =>
      obtain ⟨hst2, -⟩ := ccs_some hc
      simp only [bulkLoop, hc] at h
      cases hloop : bulkLoop true (i + 1) st2 rest with
      | error e => rw [hloop] at h; simp at h
      | ok t =>
        rcases t with ⟨rs2, k2, stF⟩
        rw [hloop] at h
        simp only [Except.ok.injEq, Prod.mk.injEq] at h
        obtain ⟨rfl, -, rfl⟩ := h
        obtain ⟨hall, hcust⟩ := ih (i + 1) st2 rs2 k2 stF hloop
        refine ⟨by simp [hall], ?_⟩
        simp [hcust, hst2, List.filterMap_cons]
    | none =>
      simp [bulkLoop, hc] at h

/-! ## Claim C2 -/

/-- C2: in best-effort mode, `BulkCreateCustomers` attempts every item in
input order; the payload reports `total_count` equal to the input length, one
result per item echoing its input, success and error counts summing to the
total, a success flag true exactly when no item failed; exactly the
successfully created customers are appended to the store (a failed item adds
nothing and rolls nothing back). -/
theorem c2_bulk_best_effort (st : Store) (cs : List CustomerInput)
    (h : cs ≠ []) :
    ∃ payload, (bulkCreateCustomers st cs false).1 = .ok payload ∧
      payload.total_count = cs.length ∧
      payload.results.map (fun r => r.input_data) = cs ∧
      payload.success_count + payload.error_count = cs.length ∧
      payload.success_count = (payload.results.filter (fun r => r.success)).length ∧
      payload.error_count = (payload.results.filter (fun r => !r.success)).length ∧
      (payload.success = true ↔ payload.error_count = 0) ∧
      (bulkCreateCustomers st cs false).2.customers =
        st.customers ++ payload.results.filterMap (fun r => r.customer) ∧
      (∀ r ∈ payload.results, r.success = false → r.customer = none) := by
  obtain ⟨rs, k, st', hloop, hmap, hlen, hk, hsum, hcust, hnone⟩ :=
    bulkLoop_false_spec cs 0 st
  have hcs : cs.isEmpty = false := by simp [List.isEmpty_iff, h]
  have hmain : bulkCreateCustomers st cs false =
      (.ok ⟨rs, cs.length, k, cs.length - k,
            bulkMessage cs.length k (cs.length - k), (cs.length - k) == 0⟩,
       st') := by
    simp [bulkCreateCustomers, hcs, hloop]
  have hkle : k ≤ cs.length := by
    have := List.length_filter_le (fun r => r.success) rs
    omega
  refine ⟨⟨rs, cs.length, k, cs.length - k,
    bulkMessage cs.length k (cs.length - k), (cs.length - k) == 0⟩,
    by rw [hmain], rfl, hmap, ?_, hk, ?_, ?_, ?_, hnone⟩
  · simp; omega
  · simp; omega
  · simp [Nat.beq_eq_true_eq]
  · rw [hmain]
    exact hcust

/-- C2, witness: three inputs whose second reuses the stored email. -/
theorem c2_witness :
    bulkInputs ≠ [] ∧
    (∃ payload, (bulkCreateCustomers annStore bulkInputs false).1 = .ok payload ∧
      payload.total_count = bulkInputs.length ∧
      payload.results.map (fun r => r.input_data) = bulkInputs ∧
      payload.success_count + payload.error_count = bulkInputs.length ∧
      payload.success_count = (payload.results.filter (fun r => r.success)).length ∧
      payload.error_count = (payload.results.filter (fun r => !r.success)).length ∧
      (payload.success = true ↔ payload.error_count = 0) ∧
      (bulkCreateCustomers annStore bulkInputs false).2.customers =
        annStore.customers ++ payload.results.filterMap (fun r => r.customer) ∧
      (∀ r ∈ payload.results, r.success = false → r.customer = none)) :=
  ⟨by decide, c2_bulk_best_effort annStore bulkInputs (by decide)⟩

/-! ## Claim C3 -/

/-- C3: in fail-fast mode, a batch containing any item that fails validation
against the incoming store is rejected; whenever the call fails the store is
exactly the incoming store (zero new customers); and a call that succeeds had
every item succeed. -/
theorem c3_bulk_fail_fast (st : Store) (cs : List CustomerInput) (h : cs ≠ []) :
    ((∃ item ∈ cs, validate_customer_data st item.name item.email item.phone ≠ []) →
      (bulkCreateCustomers st cs true).1.isOk = false) ∧
    ((bulkCreateCustomers st cs true).1.isOk = false →
      (bulkCreateCustomers st cs true).2 = st) ∧
    (∀ payload, (bulkCreateCustomers st cs true).1 = .ok payload →
      payload.results.all (fun r => r.success) = true ∧
      (bulkCreateCustomers st cs true).2.customers =
        st.customers ++ payload.results.filterMap (fun r => r.customer)) := by
  have hcs : cs.isEmpty = false := by simp [List.isEmpty_iff, h]
  refine ⟨?_, ?_, ?_⟩
  · rintro ⟨item, hitem, hval⟩
    have hpre : (preValidationErrors st cs).isEmpty = false := by
      have hmem : item ∈ cs.enum.map Prod.snd := by
        rw [List.enum_map_snd]; exact hitem
      obtain ⟨p, hp, hsnd⟩ := List.mem_map.mp hmem
      have hne : preValidationErrors st cs ≠ [] := by
        intro hnil
        have hins : ((validate_customer_data st p.2.name p.2.email p.2.phone).map
            (fun e => "Customer " ++ toString (p.1 + 1) ++ ": " ++ e)) = [] := by
          have hflat := hnil
          unfold preValidationErrors at hflat
          rw [List.flatten_eq_nil_iff] at hflat
          exact hflat _ (List.mem_map_of_mem _ hp)
        rw [hsnd] at hins
        exact hval (List.map_eq_nil_iff.mp hins)
      simp [List.isEmpty_iff, hne]
    simp [bulkCreateCustomers, hcs, hpre, Except.isOk, Except.toBool]
  · intro hko
    by_cases hp : (preValidationErrors st cs).isEmpty
    · cases hloop : bulkLoop true 0 st cs with
      | error e => simp [bulkCreateCustomers, hcs, hp, hloop]
      | ok t =>
        rcases t with ⟨rs, k, st'⟩
        simp [bulkCreateCustomers, hcs, hp, hloop, Except.isOk, Except.toBool] at hko
    · have hp2 : (preValidationErrors st cs).isEmpty = false := by
        simpa using hp
      simp [bulkCreateCustomers, hcs, hp2]
  · intro payload hok
    by_cases hp : (preValidationErrors st cs).isEmpty
    · cases hloop : bulkLoop true 0 st cs with
      | error e => simp [bulkCreateCustomers, hcs, hp, hloop] at hok
      | ok t =>
        rcases t with ⟨rs, k, st'⟩
        obtain ⟨hall, hcust⟩ := bulkLoop_true_ok cs 0 st rs k st' hloop
        have hres : payload.results = rs := by
          simp [bulkCreateCustomers, hcs, hp, hloop] at hok
          rw [← hok]
        have hst : (bulkCreateCustomers st cs true).2 = st' := by
          simp [bulkCreateCustomers, hcs, hp, hloop]
        rw [hres, hst]
        exact ⟨hall, hcust⟩
    · have hp2 : (preValidationErrors st cs).isEmpty = false := by
        simpa using hp
      simp [bulkCreateCustomers, hcs, hp2] at hok

/-- C3, witness: two items that pass pre-validation but collide in the write
phase; the whole call fails and the store is unchanged. -/
theorem c3_witness :
    twinInputs ≠ [] ∧
    (bulkCreateCustomers emptyStore twinInputs true).2 = emptyStore :=
  ⟨by decide,
   (c3_bulk_fail_fast emptyStore twinInputs (by decide)).2.1 (by decide)⟩

/-! ## Claim C1 -/

/-- C1, counterexample: the email `A@b.com` is present in `annStore` under
case-insensitive comparison (stored as `a@b.com`), yet `CreateCustomer` does
not raise the "email exists" validation error for it — the insert is instead
rejected by the store's unique constraint and reported as a database error.
This refutes the claim that every case-insensitively present email fails with
an "email exists" validation error. -/
theorem c1_counterexample :
    (∃ c ∈ annStore.customers, lower c.email = lower "A@b.com") ∧
    "Email already exists" ∉ validate_customer_data annStore "Bob" "A@b.com" none ∧
    (createCustomer annStore "Bob" "A@b.com" none).1 =
      .error "Database error: UNIQUE constraint failed: crm_customer.email" := by
  decide

/-- C1, amended: the "email exists" validation error fires exactly when the
raw input email is byte-for-byte equal to a stored email.  For an email whose
canonical (lower-cased, trimmed) form is already stored, `CreateCustomer`
still fails — via the validation error on an exact match, or via the store's
unique-email constraint otherwise — and the store is unchanged either way, so
a store whose emails are canonical never gains a case-insensitive duplicate
through this mutation. -/
theorem c1_email_uniqueness_amended (st : Store) (name email : String)
    (phone : Option String)
    (hpresent : ∃ c ∈ st.customers, c.email = strip (lower email)) :
    (createCustomer st name email phone).1.isOk = false ∧
    (createCustomer st name email phone).2 = st ∧
    (("Email already exists" ∈ validate_customer_data st name email phone) ↔
      ∃ c ∈ st.customers, c.email = email) := by
  have hany : st.customers.any (fun x => x.email == strip (lower email)) = true := by
    rcases hpresent with ⟨c, hc, he⟩
    exact List.any_eq_true.mpr ⟨c, hc, by simp [he]⟩
  have hmain : (createCustomer st name email phone).1.isOk = false ∧
      (createCustomer st name email phone).2 = st := by
    rcases ccs_cases st name email phone with ⟨_, ha, _⟩ | ⟨_, _, heq⟩ | ⟨_, heq⟩
    · rw [hany] at ha; exact absurd ha (by simp)
    · constructor <;> simp [createCustomer, heq, Except.isOk, Except.toBool]
    · constructor <;> simp [createCustomer, heq, Except.isOk, Except.toBool]
  refine ⟨hmain.1, hmain.2, ?_⟩
  rw [mem_validate_email_exists]
  simp [List.any_eq_true]

/-- C1, witness for the amended theorem at a concrete input. -/
theorem c1_witness :
    (∃ c ∈ annStore.customers, c.email = strip (lower "A@b.com")) ∧
    (createCustomer annStore "Bob" "A@b.com" none).1.isOk = false ∧
    (createCustomer annStore "Bob" "A@b.com" none).2 = annStore := by
  refine ⟨by decide, ?_, ?_⟩
  · exact (c1_email_uniqueness_amended annStore "Bob" "A@b.com" none (by decide)).1
  · exact (c1_email_uniqueness_amended annStore "Bob" "A@b.com" none (by decide)).2.1

/-! ## Claim C7 -/

/-- C7: for a valid input whose canonical email is not yet stored,
`CreateCustomer` succeeds, persists the customer with the email lower-cased
and trimmed and the name trimmed, and returns it with a success indicator and
message. -/
theorem c7_create_customer_success (st : Store) (name email : String)
    (phone : Option String)
    (hv : validate_customer_data st name email phone = [])
    (hfresh : ∀ c ∈ st.customers, c.email ≠ strip (lower email)) :
    ∃ payload, (createCustomer st name email phone).1 = .ok payload ∧
      payload.customer.email = strip (lower email) ∧
      payload.customer.name = strip name ∧
      payload.success = true ∧
      payload.message = "Customer created successfully." ∧
      (createCustomer st name email phone).2.customers =
        st.customers ++ [payload.customer] := by
  rcases ccs_cases st name email phone with ⟨_, _, heq⟩ | ⟨_, ha, _⟩ | ⟨hv2, _⟩
  · exact ⟨⟨⟨st.nextCustomerId, strip name, strip (lower email), phone⟩,
      "Customer created successfully.", true⟩,
      by simp [createCustomer, heq], rfl, rfl, rfl, rfl,
      by simp [createCustomer, heq]⟩
  · rcases List.any_eq_true.mp ha with ⟨c, hc, he⟩
    exact absurd (by simpa using he) (hfresh c hc)
  · exact absurd hv hv2

/-- C7, witness at a concrete input. -/
theorem c7_witness :
    validate_customer_data emptyStore "Bob" "Bob@Example.COM" none = [] ∧
    (∃ payload,
      (createCustomer emptyStore "Bob" "Bob@Example.COM" none).1 = .ok payload ∧
      payload.customer.email = strip (lower "Bob@Example.COM") ∧
      payload.customer.name = strip "Bob" ∧
      payload.success = true ∧
      payload.message = "Customer created successfully." ∧
      (createCustomer emptyStore "Bob" "Bob@Example.COM" none).2.customers =
        emptyStore.customers ++ [payload.customer]) :=
  ⟨by decide,
   c7_create_customer_success emptyStore "Bob" "Bob@Example.COM" none
     (by decide) (by decide)⟩

/-- Membership in the missing-id set: exactly the requested ids that resolve
to no stored product. -/
theorem mem_missingIds (st : Store) (pids : List Nat) (pid : Nat) :
    pid ∈ missingIds st pids ↔
      pid ∈ pids ∧ ∀ p ∈ st.products, p.id ≠ pid := by
  unfold missingIds foundProducts
  rw [List.mem_filter, List.mem_dedup]
  constructor
  · rintro ⟨h1, h2⟩
    refine ⟨h1, ?_⟩
    intro p hp hpid
    simp only [Bool.not_eq_true', List.any_eq_false, List.mem_filter] at h2
    exact h2 p ⟨hp, by simp [hpid, h1]⟩ (by simp [hpid])
  · rintro ⟨h1, h2⟩
    refine ⟨h1, ?_⟩
    simp only [Bool.not_eq_true', List.any_eq_false, List.mem_filter]
    intro p hp
    simp [h2 p hp.1]

/-- Summing a `filterMap` over a duplicate-free list after updating the
function at a single point adds that point's value when present. -/
theorem sum_filterMap_update (a : Nat) (v : Rat) (f g : Nat → Option Rat)
    (hfa : f a = none) (hga : g a = some v)
    (hfg : ∀ x, x ≠ a → g x = f x) :
    ∀ (L : List Nat), L.Nodup →
      (L.filterMap g).sum = (if a ∈ L then v else 0) + (L.filterMap f).sum := by
  intro L
  induction L with
  | nil => intro _; simp
  | cons x L ih =>
    intro hnd
    obtain ⟨hx, hL⟩ := List.nodup_cons.mp hnd
    by_cases hxa : x = a
    · subst hxa
      have hLfg : L.filterMap g = L.filterMap f :=
        List.filterMap_congr (fun y hy => hfg y (fun hya => hx (hya ▸ hy)))
      simp [List.filterMap_cons, hga, hfa, hLfg, hx]
    · have hax : a ≠ x := fun hax => hxa hax.symm
      have hgx : g x = f x := hfg x hxa
      have hih := ih hL
      cases hfx : f x with
      | none => simp [List.filterMap_cons, hgx, hfx, hih, hax]
      | some w =>
        by_cases haL : a ∈ L
        · simp [List.filterMap_cons, hgx, hfx, hih, hax, haL]
          try ring
        · simp [List.filterMap_cons, hgx, hfx, hih, hax, haL]
          try ring

/-- The order total over the store rows whose id occurs in a duplicate-free
request list equals the per-id sum of the (unique) matching row's price. -/
theorem sum_filter_eq_sum_dedup (L : List Nat) (hL : L.Nodup) :
    ∀ (ps : List Product), (ps.map Product.id).Nodup →
      ((ps.filter (fun p => L.contains p.id)).map Product.price).sum =
      (L.filterMap (fun pid =>
        (ps.find? (fun q => q.id == pid)).map Product.price)).sum := by
  intro ps
  induction ps with
  | nil =>
    intro _
    induction L with
    | nil => simp
    | cons x L ihL =>
      simp only [List.filterMap_cons, List.find?_nil, Option.map_none'] at ihL ⊢
      simpa using ihL (List.Nodup.of_cons hL)
  | cons p ps ih =>
    intro hnd
    rw [List.map_cons, List.nodup_cons] at hnd
    obtain ⟨hpid, hps⟩ := hnd
    have hfind_ps : ps.find? (fun q => q.id == p.id) = none :=
      List.find?_eq_none.mpr (fun q hq => by
        simp only [beq_iff_eq]
        intro hqe
        exact hpid (hqe ▸ List.mem_map_of_mem Product.id hq))
    have hupd := sum_filterMap_update p.id p.price
      (fun pid => (ps.find? (fun q => q.id == pid)).map Product.price)
      (fun pid => ((p :: ps).find? (fun q => q.id == pid)).map Product.price)
      (by simp [hfind_ps])
      (by
        show ((p :: ps).find? (fun q => q.id == p.id)).map Product.price =
          some p.price
        rw [List.find?_cons_of_pos _ (by simp)]
        rfl)
      (by
        intro x hx
        show ((p :: ps).find? (fun q => q.id == x)).map Product.price =
          (ps.find? (fun q => q.id == x)).map Product.price
        rw [List.find?_cons_of_neg _ (by simpa using fun h => hx h.symm)])
      L hL
    rw [hupd, ← ih hps]
    by_cases hmem : p.id ∈ L
    · simp [List.filter_cons, hmem]
    · simp [List.filter_cons, hmem]

/-! ## Claim C4 -/

/-- C4: for an existing customer and a non-empty request in which every id
resolves (ids of stored products being unique), `CreateOrder` succeeds, the
total equals the sum over the distinct requested ids of the matching
product's current price — a duplicated id contributes exactly once — the
order date defaults to now, and the order is persisted. -/
theorem c4_create_order_total (st : Store) (cid : Nat) (pids : List Nat)
    (now : Nat)
    (hc : ∃ c ∈ st.customers, c.id = cid)
    (hne : pids ≠ [])
    (hall : ∀ pid ∈ pids, ∃ p ∈ st.products, p.id = pid)
    (huniq : (st.products.map Product.id).Nodup) :
    ∃ payload, (createOrder st cid pids none now).1 = .ok payload ∧
      payload.order.totalAmount =
        (pids.dedup.filterMap (fun pid =>
          (st.products.find? (fun q => q.id == pid)).map Product.price)).sum ∧
      payload.order.orderDate = now ∧
      payload.success = true ∧
      (createOrder st cid pids none now).2.orders =
        st.orders ++ [payload.order] := by
  have hcany : st.customers.any (fun c => c.id == cid) = true := by
    obtain ⟨c, hcm, hcid⟩ := hc
    exact List.any_eq_true.mpr ⟨c, hcm, by simp [hcid]⟩
  have hpne : pids.isEmpty = false := by simp [List.isEmpty_iff, hne]
  have hmiss : missingIds st pids = [] := by
    rw [List.eq_nil_iff_forall_not_mem]
    intro pid hmem
    obtain ⟨hp1, hp2⟩ := (mem_missingIds st pids pid).mp hmem
    obtain ⟨p, hp, hpid⟩ := hall pid hp1
    exact hp2 p hp hpid
  have herr : orderErrors st cid pids = [] := by
    unfold orderErrors
    simp [hcany, hpne, hmiss]
  have htot : ((foundProducts st pids).map Product.price).sum =
      (pids.dedup.filterMap (fun pid =>
        (st.products.find? (fun q => q.id == pid)).map Product.price)).sum := by
    unfold foundProducts
    rw [List.filter_congr (fun p _ => ?_), sum_filter_eq_sum_dedup pids.dedup
      (List.nodup_dedup pids) st.products huniq]
    by_cases h : p.id ∈ pids <;> simp [h]
  exact ⟨⟨⟨st.nextOrderId, cid, (foundProducts st pids).map Product.id,
      ((foundProducts st pids).map Product.price).sum, now⟩,
      "Order created successfully.", true⟩,
    by simp [createOrder, herr], htot, rfl, rfl,
    by simp [createOrder, herr]⟩

/-- C4, witness: products priced 10 and 25, requested as `[1, 2, 1]`. -/
theorem c4_witness :
    ([1, 2, 1] ≠ ([] : List Nat)) ∧
    (∃ payload, (createOrder shopStore 1 [1, 2, 1] none 99).1 = .ok payload ∧
      payload.order.totalAmount =
        (([1, 2, 1] : List Nat).dedup.filterMap (fun pid =>
          (shopStore.products.find? (fun q => q.id == pid)).map
            Product.price)).sum ∧
      payload.order.orderDate = 99 ∧
      payload.success = true ∧
      (createOrder shopStore 1 [1, 2, 1] none 99).2.orders =
        shopStore.orders ++ [payload.order]) :=
  ⟨by decide,
   c4_create_order_total shopStore 1 [1, 2, 1] 99 (by decide) (by decide)
     (by decide) (by decide)⟩

/-! ## Claim C5 -/

/-- C5: when the request mixes resolving and non-resolving product ids (and
the customer exists), `CreateOrder` fails with a single error listing exactly
the unresolved ids — the set difference between requested and found — and
neither an order nor any association is persisted. -/
theorem c5_create_order_missing (st : Store) (cid : Nat) (pids : List Nat)
    (od : Option Nat) (now : Nat)
    (hc : ∃ c ∈ st.customers, c.id = cid)
    (hmix : ∃ pid ∈ pids, ∀ p ∈ st.products, p.id ≠ pid) :
    (createOrder st cid pids od now).1.isOk = false ∧
    (createOrder st cid pids od now).2 = st ∧
    orderErrors st cid pids =
      ["Invalid product IDs: " ++
        String.intercalate ", " ((missingIds st pids).map toString)] ∧
    (∀ pid, pid ∈ missingIds st pids ↔
      pid ∈ pids ∧ ∀ p ∈ st.products, p.id ≠ pid) := by
  obtain ⟨pid0, hpid0, hnores⟩ := hmix
  have hcany : st.customers.any (fun c => c.id == cid) = true := by
    obtain ⟨c, hcm, hcid⟩ := hc
    exact List.any_eq_true.mpr ⟨c, hcm, by simp [hcid]⟩
  have hpne : pids.isEmpty = false := by
    have : pids ≠ [] := fun hnil => by rw [hnil] at hpid0; simp at hpid0
    simp [List.isEmpty_iff, this]
  have hmne : (missingIds st pids).isEmpty = false := by
    have hmem := (mem_missingIds st pids pid0).mpr ⟨hpid0, hnores⟩
    have : missingIds st pids ≠ [] := fun hnil => by
      rw [hnil] at hmem; simp at hmem
    simp [List.isEmpty_iff, this]
  have herr : orderErrors st cid pids =
      ["Invalid product IDs: " ++
        String.intercalate ", " ((missingIds st pids).map toString)] := by
    unfold orderErrors
    simp [hcany, hpne, hmne]
  refine ⟨?_, ?_, herr, fun pid => mem_missingIds st pids pid⟩
  · simp [createOrder, herr, Except.isOk, Except.toBool]
  · simp [createOrder, herr]

/-- C5, witness: request `[1, 7]` against a store that only has product 1. -/
theorem c5_witness :
    (∃ c ∈ shopStore.customers, c.id = 1) ∧
    (createOrder shopStore 1 [1, 7] none 5).1.isOk = false ∧
    (createOrder shopStore 1 [1, 7] none 5).2 = shopStore :=
  ⟨by decide,
   (c5_create_order_missing shopStore 1 [1, 7] none 5 (by decide) (by decide)).1,
   (c5_create_order_missing shopStore 1 [1, 7] none 5 (by decide) (by decide)).2.1⟩

/-- Structural characterization of the first phone-regex alternative. -/
theorem intlPhoneOk_iff (s : String) :
    intlPhoneOk s = true ↔
      ∃ c ds, s.data = '+' :: c :: ds ∧ c.isDigit = true ∧ c ≠ '0' ∧
        ds ≠ [] ∧ ds.length ≤ 14 ∧ ds.all Char.isDigit = true := by
  rcases hd : s.data with _ | ⟨a, _ | ⟨c, ds⟩⟩
  · simp [intlPhoneOk, hd]
  · simp [intlPhoneOk, hd]
  · simp only [intlPhoneOk, hd]
    constructor
    · intro h
      simp only [Bool.and_eq_true, beq_iff_eq, bne_iff_ne, ne_eq,
        decide_eq_true_eq] at h
      obtain ⟨⟨⟨⟨⟨ha, hdig⟩, hz⟩, hall⟩, hlen1⟩, hlen14⟩ := h
      subst ha
      refine ⟨c, ds, rfl, hdig, hz, ?_, hlen14, hall⟩
      intro hnil
      rw [hnil] at hlen1
      simp at hlen1
    · rintro ⟨c2, ds2, heq, hdig, hz, hne, hlen, hall⟩
      simp only [List.cons.injEq] at heq
      obtain ⟨rfl, rfl, rfl⟩ := heq
      have hpos : 1 ≤ ds.length := List.length_pos.mpr hne
      simp [hdig, hz, hall, hlen, hpos]

/-- Structural characterization of the second phone-regex alternative. -/
theorem dashedPhoneOk_iff (s : String) :
    dashedPhoneOk s = true ↔
      ∃ a1 a2 a3 b1 b2 b3 c1 c2 c3 c4,
        s.data = [a1, a2, a3, '-', b1, b2, b3, '-', c1, c2, c3, c4] ∧
        ([a1, a2, a3, b1, b2, b3, c1, c2, c3, c4]).all Char.isDigit = true := by
  rcases hd : s.data with _ | ⟨a1, _ | ⟨a2, _ | ⟨a3, _ | ⟨d1, _ | ⟨b1, _ | ⟨b2,
    _ | ⟨b3, _ | ⟨d2, _ | ⟨c1, _ | ⟨c2, _ | ⟨c3, _ | ⟨c4, _ | ⟨x, rest⟩⟩⟩⟩⟩⟩⟩⟩⟩⟩⟩⟩⟩
  rotate_left 12
  · simp only [dashedPhoneOk, hd]
    constructor
    · intro h
      simp only [Bool.and_eq_true, beq_iff_eq] at h
      obtain ⟨⟨rfl, rfl⟩, hall⟩ := h
      exact ⟨a1, a2, a3, b1, b2, b3, c1, c2, c3, c4, rfl, hall⟩
    · rintro ⟨x1, x2, x3, y1, y2, y3, z1, z2, z3, z4, heq, hall⟩
      simp only [List.cons.injEq] at heq
      obtain ⟨rfl, rfl, rfl, rfl, rfl, rfl, rfl, rfl, rfl, rfl, rfl, rfl, -⟩ := heq
      simp [hall]
  all_goals simp [dashedPhoneOk, hd]

/-! ## Claim C6 -/

/-- C6, counterexample: the spec's wording accepts `+5` (a plus sign followed
by one digit, no leading zero), but the source regex `\+[1-9]\d{1,14}`
requires a second digit, so the validators reject `+5` with the phone-format
error. -/
theorem c6_counterexample :
    specPhoneOk "+5" = true ∧
    "Invalid phone format. Use +1234567890 or 123-456-7890 format" ∈
      validate_customer_data emptyStore "Bob" "bob@example.com" (some "+5") := by
  decide

/-- C6, amended: a provided phone is accepted exactly when it is a plus sign
followed by a nonzero digit and 1 to 14 further digits — 2 to 15 digits in
all, not the spec's 1 to 14 — or has the dashed `DDD-DDD-DDDD` shape. -/
theorem c6_phone_format_amended (st : Store) (name email p : String)
    (hp : p ≠ "") :
    ("Invalid phone format. Use +1234567890 or 123-456-7890 format" ∉
        validate_customer_data st name email (some p)) ↔
      ((∃ c ds, p.data = '+' :: c :: ds ∧ c.isDigit = true ∧ c ≠ '0' ∧
          ds ≠ [] ∧ ds.length ≤ 14 ∧ ds.all Char.isDigit = true) ∨
       (∃ a1 a2 a3 b1 b2 b3 c1 c2 c3 c4,
          p.data = [a1, a2, a3, '-', b1, b2, b3, '-', c1, c2, c3, c4] ∧
          ([a1, a2, a3, b1, b2, b3, c1, c2, c3, c4]).all Char.isDigit = true)) := by
  have h1 := mem_validate_phone st name email (some p)
  constructor
  · intro hnot
    have hnp : ¬ (p ≠ "" ∧ phoneRegexOk p = false) := fun hx =>
      hnot (h1.mpr ⟨p, rfl, hx.1, hx.2⟩)
    have hreg : phoneRegexOk p = true := by
      by_contra hc
      exact hnp ⟨hp, by simpa using hc⟩
    rw [phoneRegexOk, Bool.or_eq_true] at hreg
    rcases hreg with hi | hdash
    · exact Or.inl ((intlPhoneOk_iff p).mp hi)
    · exact Or.inr ((dashedPhoneOk_iff p).mp hdash)
  · intro hsh hmem
    obtain ⟨q, hq, hqne, hqreg⟩ := h1.mp hmem
    obtain rfl : p = q := by injection hq
    have hreg : phoneRegexOk p = true := by
      rw [phoneRegexOk, Bool.or_eq_true]
      rcases hsh with hi | hdash
      · exact Or.inl ((intlPhoneOk_iff p).mpr hi)
      · exact Or.inr ((dashedPhoneOk_iff p).mpr hdash)
    rw [hreg] at hqreg
    simp at hqreg

/-- C6, witness for the amended theorem: `+12` is accepted. -/
theorem c6_witness :
    "Invalid phone format. Use +1234567890 or 123-456-7890 format" ∉
      validate_customer_data emptyStore "Bob" "b@c.d" (some "+12") :=
  (c6_phone_format_amended emptyStore "Bob" "b@c.d" "+12" (by decide)).mpr
    (Or.inl ⟨'1', ['2'], by decide, by decide, by decide, by decide, by decide,
      by decide⟩)

/-- Two strings whose first characters differ are distinct. -/
theorem string_head_ne {s t : String} {c d : Char}
    (hs : s.data.head? = some c) (ht : t.data.head? = some d) (hcd : c ≠ d) :
    s ≠ t := by
  intro he
  rw [he] at hs
  rw [hs] at ht
  exact hcd (by injection ht)

/-- The customer error of `CreateOrder` starts with a `C`. -/
theorem custMsg_head (x y : String) :
    (("Customer with ID " ++ x) ++ y).data.head? = some 'C' := rfl

/-- The invalid-product-ids error of `CreateOrder` starts with an `I`. -/
theorem invalidMsg_head (z : String) :
    ("Invalid product IDs: " ++ z).data.head? = some 'I' := rfl

/-- The customer error occurs in the `CreateOrder` error list exactly when
the customer id resolves to no stored customer. -/
theorem mem_orderErrors_customer (st : Store) (cid : Nat) (pids : List Nat) :
    ("Customer with ID " ++ toString cid ++ " does not exist") ∈
        orderErrors st cid pids ↔
      st.customers.any (fun c => c.id == cid) = false := by
  have hA : ("Customer with ID " ++ toString cid ++ " does not exist") ≠
      "At least one product ID is required" :=
    string_head_ne (custMsg_head _ _)
      (show ("At least one product ID is required").data.head? = some 'A' from
        rfl) (by decide)
  have hI : ∀ z, ("Customer with ID " ++ toString cid ++ " does not exist") ≠
      ("Invalid product IDs: " ++ z) := fun z =>
    string_head_ne (custMsg_head _ _) (invalidMsg_head z) (by decide)
  unfold orderErrors
  by_cases h1 : st.customers.any (fun c => c.id == cid) = true
  · by_cases h2 : pids.isEmpty
    · simp [h1, h2, hA]
    · by_cases h3 : (missingIds st pids).isEmpty
      · simp [h1, h2, h3]
      · simp [h1, h2, h3, hI]
  · have h1f : st.customers.any (fun c => c.id == cid) = false := by
      simpa using h1
    by_cases h2 : pids.isEmpty
    · simp [h1f, h2]
    · by_cases h3 : (missingIds st pids).isEmpty
      · simp [h1f, h2, h3]
      · simp [h1f, h2, h3]

/-- The empty-product-list error occurs in the `CreateOrder` error list
exactly when the request has no product ids. -/
theorem mem_orderErrors_atLeast (st : Store) (cid : Nat) (pids : List Nat) :
    "At least one product ID is required" ∈ orderErrors st cid pids ↔
      pids = [] := by
  have hA : "At least one product ID is required" ≠
      ("Customer with ID " ++ toString cid ++ " does not exist") :=
    (string_head_ne (custMsg_head _ _)
      (show ("At least one product ID is required").data.head? = some 'A' from
        rfl) (by decide)).symm
  have hI : ∀ z, "At least one product ID is required" ≠
      ("Invalid product IDs: " ++ z) := fun z =>
    string_head_ne
      (show ("At least one product ID is required").data.head? = some 'A' from
        rfl) (invalidMsg_head z) (by decide)
  unfold orderErrors
  by_cases h2 : pids.isEmpty
  · have h2e : pids = [] := List.isEmpty_iff.mp h2
    by_cases h1 : st.customers.any (fun c => c.id == cid) = true
    · simp [h1, h2, h2e]
    · have h1f : st.customers.any (fun c => c.id == cid) = false := by
        simpa using h1
      simp [h1f, h2, h2e, hA]
  · have hne : pids ≠ [] := fun h => by rw [h] at h2; simp at h2
    by_cases h1 : st.customers.any (fun c => c.id == cid) = true
    · by_cases h3 : (missingIds st pids).isEmpty
      · simp [h1, h2, h3, hne]
      · simp [h1, h2, h3, hne, hI]
    · have h1f : st.customers.any (fun c => c.id == cid) = false := by
        simpa using h1
      by_cases h3 : (missingIds st pids).isEmpty
      · simp [h1f, h2, h3, hA, hne]
      · simp [h1f, h2, h3, hA, hne, hI]

/-- The unresolved-ids error occurs in the `CreateOrder` error list exactly
when the request is non-empty and some requested id resolves to no stored
product — regardless of whether the customer id resolves. -/
theorem mem_orderErrors_invalid (st : Store) (cid : Nat) (pids : List Nat) :
    (("Invalid product IDs: " ++
        String.intercalate ", " ((missingIds st pids).map toString)) ∈
      orderErrors st cid pids) ↔
      (pids ≠ [] ∧ missingIds st pids ≠ []) := by
  have hC : ∀ z, ("Invalid product IDs: " ++ z) ≠
      ("Customer with ID " ++ toString cid ++ " does not exist") := fun z =>
    string_head_ne (invalidMsg_head z) (custMsg_head _ _) (by decide)
  have hA : ∀ z, ("Invalid product IDs: " ++ z) ≠
      "At least one product ID is required" := fun z =>
    string_head_ne (invalidMsg_head z)
      (show ("At least one product ID is required").data.head? = some 'A' from
        rfl) (by decide)
  unfold orderErrors
  by_cases h2 : pids.isEmpty
  · have h2e : pids = [] := List.isEmpty_iff.mp h2
    by_cases h1 : st.customers.any (fun c => c.id == cid) = true
    · simp [h1, h2, h2e, hA]
    · have h1f : st.customers.any (fun c => c.id == cid) = false := by
        simpa using h1
      simp [h1f, h2, h2e, hA, hC]
  · have hne : pids ≠ [] := fun h => by rw [h] at h2; simp at h2
    by_cases h3 : (missingIds st pids).isEmpty
    · have h3e : missingIds st pids = [] := List.isEmpty_iff.mp h3
      by_cases h1 : st.customers.any (fun c => c.id == cid) = true
      · simp [h1, h2, h3, h3e]
      · have h1f : st.customers.any (fun c => c.id == cid) = false := by
          simpa using h1
        simp [h1f, h2, h3, h3e, hC]
    · have h3ne : missingIds st pids ≠ [] := fun h => by rw [h] at h3; simp at h3
      by_cases h1 : st.customers.any (fun c => c.id == cid) = true
      · simp [h1, h2, h3, hne, h3ne]
      · have h1f : st.customers.any (fun c => c.id == cid) = false := by
          simpa using h1
        simp [h1f, h2, h3, hne, h3ne]

/-- A request whose customer is missing and whose (non-empty) product list
has unresolved ids reports both violations together: the `CreateOrder` error
list is exactly the customer error followed by the unresolved-ids error. -/
theorem orderErrors_both (st : Store) (cid : Nat) (pids : List Nat)
    (h1 : st.customers.any (fun c => c.id == cid) = false)
    (h2 : pids ≠ []) (h3 : missingIds st pids ≠ []) :
    orderErrors st cid pids =
      ["Customer with ID " ++ toString cid ++ " does not exist",
       "Invalid product IDs: " ++
         String.intercalate ", " ((missingIds st pids).map toString)] := by
  have h2f : pids.isEmpty = false := by simp [List.isEmpty_iff, h2]
  have h3f : (missingIds st pids).isEmpty = false := by
    simp [List.isEmpty_iff, h3]
  unfold orderErrors
  simp [h1, h2f, h3f]

/-! ## Claim C8 -/

/-- C8: the validators accumulate every violation rather than stopping at
the first: each customer-validation message occurs in the returned list
exactly when its own condition is violated, independently of the others, and
likewise each `CreateOrder` error — missing customer, empty product list,
and unresolved product ids; in particular a missing customer together with
unresolved ids yields exactly the two corresponding errors. -/
theorem c8_validators_accumulate (st : Store) (name email : String)
    (phone : Option String) (cid : Nat) (pids : List Nat) :
    (("Name is required" ∈ validate_customer_data st name email phone) ↔
      isBlank name = true) ∧
    (("Invalid email format" ∈ validate_customer_data st name email phone) ↔
      emailFormatOk email = false) ∧
    (("Email already exists" ∈ validate_customer_data st name email phone) ↔
      st.customers.any (fun c => c.email == email) = true) ∧
    (("Invalid phone format. Use +1234567890 or 123-456-7890 format" ∈
        validate_customer_data st name email phone) ↔
      ∃ q, phone = some q ∧ q ≠ "" ∧ phoneRegexOk q = false) ∧
    ((("Customer with ID " ++ toString cid ++ " does not exist") ∈
        orderErrors st cid pids) ↔
      st.customers.any (fun c => c.id == cid) = false) ∧
    (("At least one product ID is required" ∈ orderErrors st cid pids) ↔
      pids = []) ∧
    ((("Invalid product IDs: " ++
        String.intercalate ", " ((missingIds st pids).map toString)) ∈
      orderErrors st cid pids) ↔
      (pids ≠ [] ∧ missingIds st pids ≠ [])) ∧
    (st.customers.any (fun c => c.id == cid) = false → pids ≠ [] →
      missingIds st pids ≠ [] →
      orderErrors st cid pids =
        ["Customer with ID " ++ toString cid ++ " does not exist",
         "Invalid product IDs: " ++
           String.intercalate ", " ((missingIds st pids).map toString)]) :=
  ⟨mem_validate_name st name email phone,
   mem_validate_email_format st name email phone,
   mem_validate_email_exists st name email phone,
   mem_validate_phone st name email phone,
   mem_orderErrors_customer st cid pids,
   mem_orderErrors_atLeast st cid pids,
   mem_orderErrors_invalid st cid pids,
   fun h1 h2 h3 => orderErrors_both st cid pids h1 h2 h3⟩

/-- C8, witness: a request whose customer id 42 is unknown and whose product
list `[7]` is entirely unresolved reports both errors together. -/
theorem c8_witness :
    emptyStore.customers.any (fun c => c.id == 42) = false ∧
    ([7] : List Nat) ≠ [] ∧
    missingIds emptyStore [7] ≠ [] ∧
    orderErrors emptyStore 42 [7] =
      ["Customer with ID " ++ toString 42 ++ " does not exist",
       "Invalid product IDs: " ++
         String.intercalate ", " ((missingIds emptyStore [7]).map toString)] :=
  ⟨by decide, by decide, by decide,
   (c8_validators_accumulate emptyStore "Ann" "a@b.c" none 42 [7]).2.2.2.2.2.2.2
     (by decide) (by decide) (by decide)⟩

/-! ## Claim C9 -/

/-- C9: `CreateProduct` fails for a non-positive price and for a provided
negative stock, leaving the store unchanged; for a positive price with stock
omitted it succeeds, persisting the product with stock defaulted to 0. -/
theorem c9_create_product (st : Store) (name : String) (price : Rat)
    (stock : Option Int) :
    (price ≤ 0 → (createProduct st name price stock).1.isOk = false ∧
      (createProduct st name price stock).2 = st) ∧
    (∀ sv, stock = some sv → sv < 0 →
      (createProduct st name price stock).1.isOk = false ∧
      (createProduct st name price stock).2 = st) ∧
    (0 < price → stock = none →
      ∃ payload, (createProduct st name price stock).1 = .ok payload ∧
        payload.product.stock = 0 ∧
        payload.product.price = price ∧
        payload.success = true ∧
        (createProduct st name price stock).2.products =
          st.products ++ [payload.product]) := by
  refine ⟨?_, ?_, ?_⟩
  · intro hp
    cases stock with
    | none =>
      constructor <;> simp [createProduct, hp, Except.isOk, Except.toBool]
    | some sv =>
      by_cases hs : sv < 0 <;>
        constructor <;>
        simp [createProduct, hp, hs, Except.isOk, Except.toBool]
  · intro sv hsv hneg
    subst hsv
    by_cases hp : price ≤ 0 <;>
      constructor <;>
      simp [createProduct, hp, hneg, Except.isOk, Except.toBool]
  · intro hp hnone
    subst hnone
    have h1 : ¬ price ≤ 0 := not_le.mpr hp
    refine ⟨⟨⟨st.nextProductId, name, price, 0⟩,
      "Product created successfully.", true⟩, ?_, rfl, rfl, rfl, ?_⟩
    · simp [createProduct, h1]
    · simp [createProduct, h1]

/-- C9, witness at concrete inputs: price `-1` is rejected, price `5` with
stock omitted yields stock 0. -/
theorem c9_witness :
    ((-1 : Rat) ≤ 0 ∧
      (createProduct emptyStore "Neg" (-1) none).1.isOk = false) ∧
    ((0 : Rat) < 5 ∧
      ∃ payload, (createProduct emptyStore "Pos" 5 none).1 = .ok payload ∧
        payload.product.stock = 0 ∧
        payload.product.price = 5 ∧
        payload.success = true ∧
        (createProduct emptyStore "Pos" 5 none).2.products =
          emptyStore.products ++ [payload.product]) :=
  ⟨⟨by norm_num,
    ((c9_create_product emptyStore "Neg" (-1) none).1 (by norm_num)).1⟩,
   ⟨by norm_num,
    (c9_create_product emptyStore "Pos" 5 none).2.2 (by norm_num) rfl⟩⟩

/-! ## Claim C10 -/

/-- C10: `BulkCreateCustomers` called with an empty list fails with the error
"No customers provided" and leaves the store unchanged; it does not return a
successful zero-count payload. -/
theorem c10_bulk_empty (st : Store) (fob : Bool) :
    bulkCreateCustomers st [] fob = (.error "No customers provided", st) := rfl

end CRM
